import Mathlib

/-!
Shallow embedding of the command dispatch loop of
`gamestonk_terminal/technical_analysis/ta_controller.py`
(`TechnicalAnalysisController` and `menu`) and of the MarketWatch
comparison views in
`gamestonk_terminal/stocks/comparison_analysis/marketwatch_view.py`.

Python's `None`/`False`/`True` return values of `switch` become
`Option Bool` (`none` = CONTINUE, `some false` = EXIT_MENU,
`some true` = EXIT_PROGRAM).  Raised exceptions become the `error`
side of `Except PyExc`; `SystemExit` (raised by argparse on a bad
positional) is kept distinct from ordinary `Exception`s because
`except Exception` clauses do not catch it while the `menu` loop
catches exactly `SystemExit`.  Side effects (printing, file removal,
showing a chart) are logged as an explicit event list; the file system
is a list of existing file names threaded through the state.
-/

namespace GT

/-- Python exceptions, split the way the source splits them:
`SystemExit` (what `argparse` raises via `sys.exit` on a parse error)
versus ordinary `Exception`s (everything an `except Exception` clause
catches). -/
inductive PyExc where
  | systemExit : PyExc
  | exc : String → PyExc
deriving DecidableEq

/-- Observable side effects of the controller: console prints, file
removal (`os.remove`), `plt.ion()`, `plt.show()`, `plt.close("all")`,
and a data-export call (present in the event alphabet so that its
absence is statable; the handlers in this controller never emit it). -/
inductive Event where
  | print : String → Event
  | removeFile : String → Event
  | ion : Event
  | chartShow : Event
  | closeAll : Event
  | exportData : String → Event
deriving DecidableEq

/-- Controller state: the session context fields stored by
`TechnicalAnalysisController.__init__` (`stock`, `ticker`, `start`,
`interval`, `gst`), the mutable `delete_img` flag, plus the ambient
world the code touches: the file system (names of existing files),
the `gtff.USE_ION` feature flag, and whether the upstream data layer
is currently available (external calls may fail). -/
structure St where
  stock : String
  ticker : String
  start : Option String
  interval : String
  gst : String
  delete_img : Bool
  fs : List String
  use_ion : Bool
  upstreamOk : Bool
deriving DecidableEq

/-- Registered command names: `TechnicalAnalysisController.CHOICES`. -/
def CHOICES : List String :=
  ["help", "q", "quit", "view", "summary", "recom", "pr",
   "ema", "sma", "vwap", "cci", "macd", "rsi", "stoch",
   "adx", "aroon", "bbands", "ad", "obv"]

/-- Splitting a character list at every separator, keeping empty
pieces — the semantics of `str.split(sep)` for a one-character
separator, and the building block for whitespace splitting.
(`String.split` itself is not used because its well-founded recursion
does not reduce inside the kernel.) -/
def splitChars (p : Char → Bool) : List Char → List Char →
    List (List Char)
  | [], acc => [acc.reverse]
  | c :: rest, acc =>
    if p c then acc.reverse :: splitChars p rest []
    else splitChars p rest (c :: acc)

/-- `String` version of `splitChars`. -/
def strSplit (p : Char → Bool) (s : String) : List String :=
  (splitChars p s.data []).map (fun cs => String.mk cs)

/-- A run of decimal digits to its value; `none` on an empty or
non-digit string.  Helper for `pyInt?`. -/
def digitsToNat? (cs : List Char) : Option Nat :=
  if cs ≠ [] ∧ cs.all Char.isDigit then
    some (cs.foldl (fun a c => a * 10 + (c.toNat - 48)) 0)
  else none

/-- Python `int(s)` on the fragment exercised here: an optional sign
followed by decimal digits; `none` models the `ValueError` that
`int` raises otherwise. -/
def pyInt? (s : String) : Option Int :=
  match s.data with
  | '-' :: rest => (digitsToNat? rest).map (fun n => -(n : Int))
  | '+' :: rest => (digitsToNat? rest).map (fun n => (n : Int))
  | cs => (digitsToNat? cs).map (fun n => (n : Int))

/-- The `--length` type coercion of `call_ema`/`call_sma`:
`lambda s: [int(item) for item in s.split(",")]`.  A `ValueError`
from any element (`none` here) aborts the whole coercion, which
argparse reports as an argument error. -/
def ma_length_type (s : String) : Option (List Int) :=
  (strSplit (· = ',') s).mapM pyInt?

/-- Modelled from the spec: `check_positive` from
`gamestonk_terminal/helper_funcs.py`, which is not under `src/`.
The spec describes the `--offset` option as "non-negative integer,
default 0" with a numeric validity predicate, so the coercion accepts
an integer `v` with `0 ≤ v` and fails (argument error) otherwise. -/
def check_positive (s : String) : Option Int :=
  match pyInt? s with
  | some v => if 0 ≤ v then some v else none
  | none => none

/-- Parsed options record for the `ema`/`sma` argument schema. -/
structure MaOpts where
  length : List Int
  offset : Int
deriving DecidableEq

/-- The argument schema that `call_ema` and `call_sma` both declare:
`-l` (long form `--length`) coerced by `ma_length_type` with default
`[20, 50]`, and `-o` (long form `--offset`) coerced by
`check_positive` with default `0`.
Tokens recognized by neither flag are collected (argparse
`parse_known_args` extras).  Returns the options record and the
extras, or the argument-error message. -/
def ma_parse_tokens :
    List String → Option (List Int) → Option Int → List String →
    Except String (MaOpts × List String)
  | [], len?, off?, extras =>
    .ok ({ length := len?.getD [20, 50], offset := off?.getD 0 },
         extras.reverse)
  | t :: rest, len?, off?, extras =>
    if t = "-l" ∨ t = "--length" then
      match rest with
      | [] => .error "argument -l/--length: expected one argument"
      | v :: rest2 =>
        match ma_length_type v with
        | some l => ma_parse_tokens rest2 (some l) off? extras
        | none => .error ("argument -l/--length: invalid value: " ++ v)
    else if t = "-o" ∨ t = "--offset" then
      match rest with
      | [] => .error "argument -o/--offset: expected one argument"
      | v :: rest2 =>
        match check_positive v with
        | some n => ma_parse_tokens rest2 len? (some n) extras
        | none => .error ("argument -o/--offset: invalid value: " ++ v)
    else
      ma_parse_tokens rest len? off? (t :: extras)

/-- Modelled from the spec: `parse_known_args_and_warn` from
`gamestonk_terminal/helper_funcs.py`, which is not under `src/`.
Per the spec, on failure the parser "emits a warning and returns
'no result' (sentinel) rather than raising"; on success with
unrecognized tokens it warns and still returns the record.
Result: printed events paired with the options record or the
sentinel `none`. -/
def parse_known_args_and_warn (tokens : List String) :
    List Event × Option MaOpts :=
  match ma_parse_tokens tokens none none [] with
  | .ok (opts, extras) =>
    (if extras = [] then [] else
      [Event.print ("The following args couldn\x27t be interpreted: "
        ++ String.intercalate " " extras)],
     some opts)
  | .error msg => ([Event.print msg], none)

/-- The interval banner of `print_help`:
`(f"Intraday {self.interval}", "Daily")[self.interval == "1440min"]`. -/
def s_intraday (st : St) : String :=
  if st.interval = "1440min" then "Daily" else "Intraday " ++ st.interval

/-- `print_help`: the sequence of console prints (header line depends
on whether `start` is set, then the fixed menu text). -/
def print_help_events (st : St) : List Event :=
  (match st.start with
   | some d =>
     [Event.print ("\n" ++ s_intraday st ++ " Stock: " ++ st.ticker
       ++ " (from " ++ d ++ ")")]
   | none =>
     [Event.print ("\n" ++ s_intraday st ++ " Stock: " ++ st.ticker)])
  ++ [Event.print "\nTechnical Analysis:",
      Event.print "   help        show this technical analysis menu again",
      Event.print "   q           quit this menu, and shows back to main menu",
      Event.print "   quit        quit to abandon program",
      Event.print "",
      Event.print "   view        view historical data and trendlines [Finviz]",
      Event.print "   summary     technical summary report [FinBrain API]",
      Event.print "   recom       recommendation based on Technical Indicators [Tradingview API]",
      Event.print "   pr          pattern recognition [Finnhub]",
      Event.print "",
      Event.print "overlap:",
      Event.print "   ema         exponential moving average",
      Event.print "   sma         simple moving average",
      Event.print "   vwap        volume weighted average price",
      Event.print "momentum:",
      Event.print "   cci         commodity channel index",
      Event.print "   macd        moving average convergence/divergence",
      Event.print "   rsi         relative strength index",
      Event.print "   stoch       stochastic oscillator",
      Event.print "trend:",
      Event.print "   adx         average directional movement index",
      Event.print "   aroon       aroon indicator",
      Event.print "volatility:",
      Event.print "   bbands      bollinger bands",
      Event.print "volume:",
      Event.print "   ad          chaikin accumulation/distribution line values",
      Event.print "   obv         on balance volume",
      Event.print ""]

deriving instance DecidableEq for Except

/-- Result of one handler invocation (and of `switch`): the updated
state, the logged events, and either a normally returned control
signal or a raised exception. -/
structure DispatchResult where
  state : St
  events : List Event
  outcome : Except PyExc (Option Bool)
deriving DecidableEq

/-- Modelled from the spec: the indicator and view modules called by
the simple handlers (`ta_overlap.vwap`, `ta_momentum.*`, `ta_trend.*`,
`ta_volatility.*`, `ta_volume.*`, `finbrain_view`, `tradingview_view`,
`finviz_view`, `finnhub_view`), repository code not under `src/`.
Per the spec each such function parses its own schema and catches its
own failures ("caught by the handler, reported to the user, command
aborted, loop continues"), printing either its output or a diagnostic;
it raises nothing and returns no signal. -/
def extern_call (name : String) (upstreamOk : Bool) : List Event :=
  if upstreamOk then [Event.print (name ++ " output")]
  else [Event.print (name ++ ": upstream error")]

/-- Modelled from the spec: `ta_overlap.ema` / `ta_overlap.sma`
(repository code not under `src/`), the compute layer invoked from
inside the `try` block of `call_ema`/`call_sma`.  Per the spec the
data layer "may fail with UpstreamUnavailable or UpstreamFormatError";
a failure here is an ordinary `Exception` the caller catches. -/
def ta_overlap_ma (name : String) (gst : String) (length : List Int)
    (offset : Int) (upstreamOk : Bool) : Except PyExc (List Event) :=
  if upstreamOk then .ok [] else
    .error (.exc ("UpstreamUnavailable: " ++ name ++ " " ++ gst ++ " "
      ++ toString length ++ " " ++ toString offset))

/-- `call_help`: print the help text, fall off the end (return `None`). -/
def call_help (st : St) (_other : List String) : DispatchResult :=
  { state := st, events := print_help_events st, outcome := .ok none }

/-- `call_q`: return `False` (quit the menu). -/
def call_q (st : St) (_other : List String) : DispatchResult :=
  { state := st, events := [], outcome := .ok (some false) }

/-- `call_quit`: return `True` (quit the program). -/
def call_quit (st : St) (_other : List String) : DispatchResult :=
  { state := st, events := [], outcome := .ok (some true) }

/-- `call_view`: invoke `finviz_view.view`, then set `delete_img`. -/
def call_view (st : St) (other : List String) : DispatchResult :=
  { state := { st with delete_img := true },
    events := extern_call ("view " ++ String.intercalate " " other
      ++ " " ++ st.ticker) st.upstreamOk,
    outcome := .ok none }

/-- A handler of the shape `extern(other_args, self.ticker,
self.interval, self.stock)` shared by `call_vwap`, `call_cci`,
`call_macd`, `call_rsi`, `call_stoch`, `call_adx`, `call_aroon`,
`call_bbands`, `call_ad` and `call_obv` (and, with fewer context
arguments, `call_summary`, `call_recom`, `call_pr`). -/
def call_simple (name : String) (st : St) (other : List String) :
    DispatchResult :=
  { state := st,
    events := extern_call (name ++ " " ++ String.intercalate " " other
      ++ " " ++ st.ticker) st.upstreamOk,
    outcome := .ok none }

/-- `call_ema` / `call_sma` (identical bodies up to the external
function they invoke): parse the `-l` and `-o` schema through
`parse_known_args_and_warn`; on the sentinel, return; otherwise call
the compute layer, `plt.ion()` when `gtff.USE_ION`, `plt.show()`,
print an empty line.  The whole body sits in
`try ... except Exception as e: print(e, "\n")`. -/
def call_ma (name : String) (st : St) (other : List String) :
    DispatchResult :=
  match parse_known_args_and_warn other with
  | (pevs, none) => { state := st, events := pevs, outcome := .ok none }
  | (pevs, some ns) =>
    match ta_overlap_ma name st.gst ns.length ns.offset st.upstreamOk with
    | .error (.exc m) =>
      { state := st,
        events := pevs ++ [Event.print (m ++ " \n")],
        outcome := .ok none }
    | .error .systemExit =>
      { state := st, events := pevs, outcome := .error .systemExit }
    | .ok cevs =>
      { state := st,
        events := pevs ++ cevs
          ++ (if st.use_ion then [Event.ion] else [])
          ++ [Event.chartShow, Event.print ""],
        outcome := .ok none }

/-- The `getattr(self, "call_" + cmd, fallback)` lookup: the methods
that exist on the controller, keyed by command name. -/
def lookup_call (cmd : String) :
    Option (St → List String → DispatchResult) :=
  if cmd = "help" then some call_help
  else if cmd = "q" then some call_q
  else if cmd = "quit" then some call_quit
  else if cmd = "view" then some call_view
  else if cmd = "summary" then some (call_simple "summary")
  else if cmd = "recom" then some (call_simple "recom")
  else if cmd = "pr" then some (call_simple "pr")
  else if cmd = "ema" then some (call_ma "ema")
  else if cmd = "sma" then some (call_ma "sma")
  else if cmd = "vwap" then some (call_simple "vwap")
  else if cmd = "cci" then some (call_simple "cci")
  else if cmd = "macd" then some (call_simple "macd")
  else if cmd = "rsi" then some (call_simple "rsi")
  else if cmd = "stoch" then some (call_simple "stoch")
  else if cmd = "adx" then some (call_simple "adx")
  else if cmd = "aroon" then some (call_simple "aroon")
  else if cmd = "bbands" then some (call_simple "bbands")
  else if cmd = "ad" then some (call_simple "ad")
  else if cmd = "obv" then some (call_simple "obv")
  else none

/-- Python `an_input.split()`: split on whitespace, drop empties. -/
def tokenize (s : String) : List String :=
  (strSplit Char.isWhitespace s).filter (· ≠ "")

/-- argparse's negative-number matcher (`^-\d+$|^-\d*\.\d+$`) applied
to the characters after a leading `-`: a non-empty digit run, or an
optional digit run, a dot and a non-empty digit run.  Because
`ta_parser` declares no option strings that look like negative
numbers, tokens matching this pattern count as positionals. -/
def matches_neg_number (cs : List Char) : Bool :=
  match splitChars (· = '.') cs [] with
  | [ds] => !ds.isEmpty && ds.all Char.isDigit
  | [ds, fs] => ds.all Char.isDigit && !fs.isEmpty && fs.all Char.isDigit
  | _ => false

/-- argparse's token classification (`_parse_optional`) for a parser
with no declared optionals: a token is option-like when it begins with
`-`, except a bare `-`, the `--` separator (handled by the caller) and
a negative number, which all count as positionals. -/
def is_option_like (t : String) : Bool :=
  match t.data with
  | '-' :: [] => false
  | '-' :: '-' :: [] => false
  | '-' :: rest => !matches_neg_number rest
  | _ => false

/-- The scan of `parse_known_args` for the single positional `cmd`
with `choices=CHOICES`: option-like tokens are collected as extras;
the first `--` makes every later token positional; the first
positional token is bound to `cmd` and checked against the choices
(argparse prints a usage diagnostic and calls `sys.exit` — raising
`SystemExit` — on an invalid choice, or when no positional token
supplies the required `cmd`); the tokens after the bound command are
returned as extras behind the skipped ones. -/
def find_cmd : List String → List String →
    Except PyExc (String × List String)
  | [], _ => .error .systemExit
  | t :: rest, skipped =>
    if t = "--" then
      match rest with
      | [] => .error .systemExit
      | c :: rest2 =>
        if CHOICES.contains c then .ok (c, skipped.reverse ++ rest2)
        else .error .systemExit
    else if is_option_like t then find_cmd rest (t :: skipped)
    else if CHOICES.contains t then .ok (t, skipped.reverse ++ rest)
    else .error .systemExit

/-- `self.ta_parser.parse_known_args(tokens)`: see `find_cmd`. -/
def parse_cmd (tokens : List String) :
    Except PyExc (String × List String) :=
  find_cmd tokens []

/-- The cleanup block at the top of `switch`: when `delete_img` is
set and `<ticker>.jpg` exists, remove it and clear the flag.  Note:
in the source the flag reset sits inside the `os.path.isfile` branch,
so an absent file leaves `delete_img` set. -/
def cleanup (st : St) : St × List Event :=
  if st.delete_img then
    if st.fs.contains (st.ticker ++ ".jpg") then
      ({ st with fs := st.fs.erase (st.ticker ++ ".jpg"),
                 delete_img := false },
       [Event.removeFile (st.ticker ++ ".jpg")])
    else (st, [])
  else (st, [])

/-- `TechnicalAnalysisController.switch`: parse the command token
(`SystemExit` propagates on failure, before the cleanup block runs),
run the cleanup block, then invoke `call_<cmd>` on the extras; when no
such method exists the zero-argument fallback lambda is applied to one
argument, a `TypeError`. -/
def switch (st : St) (an_input : String) : DispatchResult :=
  match parse_cmd (tokenize an_input) with
  | .error e =>
    { state := st,
      events := [Event.print ("ta: error: argument cmd: invalid choice: "
        ++ an_input)],
      outcome := .error e }
  | .ok (cmd, other) =>
    let st1 := (cleanup st).1
    let cevs := (cleanup st).2
    match lookup_call cmd with
    | some h =>
      let r := h st1 other
      { r with events := cevs ++ r.events }
    | none =>
      { state := st1, events := cevs,
        outcome := .error (.exc
          "TypeError: lambda takes 0 positional arguments but 1 was given") }

/-- How one `menu` run ends: a handler signal is returned to the
caller, the injected input lines ran out (the loop would block on
`input()`), or an uncaught exception propagates. -/
inductive MenuOut where
  | returned : Bool → MenuOut
  | needInput : MenuOut
  | raised : PyExc → MenuOut
deriving DecidableEq

/-- The `while True` loop of `menu`, reading from an injected list of
input lines: each iteration closes all figures, dispatches through
`switch`, returns a non-`None` result, catches `SystemExit` with the
diagnostic `The command selected doesn't exist`, and lets any other
exception propagate.  Also returns the number of dispatches made. -/
def menu_loop (st : St) : List String → List Event × MenuOut × Nat
  | [] => ([], .needInput, 0)
  | line :: rest =>
    let r := switch st line
    match r.outcome with
    | .ok none =>
      let (evs, out, n) := menu_loop r.state rest
      (Event.closeAll :: r.events ++ evs, out, n + 1)
    | .ok (some b) => (Event.closeAll :: r.events, .returned b, 1)
    | .error .systemExit =>
      let (evs, out, n) := menu_loop r.state rest
      (Event.closeAll :: r.events
        ++ [Event.print "The command selected doesn\x27t exist\n"] ++ evs,
       out, n + 1)
    | .error e => (Event.closeAll :: r.events, .raised e, 1)

/-- `menu`: construct the controller (`delete_img` starts `False`),
print the help text once, then run the input loop. -/
def menu (stock ticker : String) (start : Option String)
    (interval gst : String) (fs : List String) (use_ion upstreamOk : Bool)
    (lines : List String) : List Event × MenuOut × Nat :=
  let st : St :=
    { stock := stock, ticker := ticker, start := start,
      interval := interval, gst := gst, delete_img := false,
      fs := fs, use_ion := use_ion, upstreamOk := upstreamOk }
  let (evs, out, n) := menu_loop st lines
  (print_help_events st ++ evs, out, n)

/-! Embedding of
`gamestonk_terminal/stocks/comparison_analysis/marketwatch_view.py`.
The comparison dataframe is a table of cells with an optional index
name; `marketwatch_model.get_financial_comparisons` is the opaque
data layer, so its result is a parameter.  `export_data`,
`print_rich_table`, `patch_pandas_text_adjustment` and
`console.print` are presentation-layer calls, logged as events with
the table value they receive at call time. -/

/-- A pandas dataframe as these views observe it: cells plus the
`index.name`. -/
structure Table where
  cells : List (List String)
  indexName : Option String
deriving DecidableEq

/-- `df.applymap(f)`: apply `f` to every cell. -/
def applymapT (f : String → String) (t : Table) : Table :=
  { t with cells := t.cells.map (fun row => row.map f) }

/-- Observable calls the comparison views make. -/
inductive MwEvent where
  | exportCall : String → String → Table → MwEvent
  | patchText : MwEvent
  | renderTable : String → Table → MwEvent
  | consolePrint : String → MwEvent

/-- Shared body of `display_income_comparison`,
`display_balance_comparison` and `display_cashflow_comparison`
(they differ only in the statement name passed to the data layer and
exporter and in the rendered title): export the fetched comparison
table, then — only if `gtff.USE_COLOR` — colorize every cell with
`financials_colored_values` and patch the pandas text adjustment,
set the index name to the timeframe unless quarterly, and render. -/
def display_comparison (statement title : String)
    (colorize : String → String) (fetched : Table) (timeframe : String)
    (quarter : Bool) (exportFmt : String) (useColor : Bool) :
    List MwEvent :=
  let df := fetched
  let e1 := MwEvent.exportCall exportFmt statement df
  let (df2, pevs) :=
    if useColor then (applymapT colorize df, [MwEvent.patchText])
    else (df, [])
  let df3 :=
    if !quarter then { df2 with indexName := some timeframe } else df2
  e1 :: pevs ++ [MwEvent.renderTable title df3, MwEvent.consolePrint ""]

/-- `display_income_comparison`. -/
def display_income_comparison (colorize : String → String)
    (fetched : Table) (timeframe : String) (quarter : Bool)
    (exportFmt : String) (useColor : Bool) : List MwEvent :=
  display_comparison "income" "Income Data" colorize fetched timeframe
    quarter exportFmt useColor

/-- `display_balance_comparison`. -/
def display_balance_comparison (colorize : String → String)
    (fetched : Table) (timeframe : String) (quarter : Bool)
    (exportFmt : String) (useColor : Bool) : List MwEvent :=
  display_comparison "balance" "Company Comparison" colorize fetched
    timeframe quarter exportFmt useColor

/-- `display_cashflow_comparison`. -/
def display_cashflow_comparison (colorize : String → String)
    (fetched : Table) (timeframe : String) (quarter : Bool)
    (exportFmt : String) (useColor : Bool) : List MwEvent :=
  display_comparison "cashflow" "Cashflow Comparison" colorize fetched
    timeframe quarter exportFmt useColor

/-- The tables handed to `export_data` during a run, in order. -/
def exported_tables (evs : List MwEvent) : List Table :=
  evs.filterMap (fun e => match e with
    | MwEvent.exportCall _ _ t => some t
    | _ => none)

/-- `true` iff the dispatch returned a control signal normally (no
exception escaped). -/
def isReturned : Except PyExc (Option Bool) → Bool
  | .ok _ => true
  | .error _ => false

/-- A concrete controller state used to instantiate theorems:
daily GME data, no pending cleanup, empty file system, upstream up. -/
def sampleSt : St :=
  { stock := "df", ticker := "GME", start := none, interval := "1440min",
    gst := "g", delete_img := false, fs := [], use_ion := false,
    upstreamOk := true }

/-- `sampleSt` with a pending cleanup whose artifact `GME.jpg` is
absent from the file system. -/
def samplePendingAbsent : St := { sampleSt with delete_img := true }

/-- `sampleSt` with a pending cleanup whose artifact `GME.jpg` is
present in the file system. -/
def samplePendingPresent : St :=
  { sampleSt with delete_img := true, fs := ["GME.jpg"] }

/-! Helper lemmas about the dispatch pipeline, shared by the claim
theorems below. -/

/-- A line whose first token is a registered command parses to that
command and the remaining tokens (no registered name is option-like
or the `--` separator). -/
theorem parse_cmd_ok_of (input c : String) (rest : List String)
    (h1 : tokenize input = c :: rest) (hc : CHOICES.contains c = true) :
    parse_cmd (tokenize input) = .ok (c, rest) := by
  have hm : c ∈ CHOICES := by simpa using hc
  rw [h1]
  fin_cases hm <;> rfl

/-- A line whose first token is positional-like (neither option-like
nor the `--` separator) but not a registered command makes the parse
raise `SystemExit`. -/
theorem parse_cmd_err_of (input c : String) (rest : List String)
    (h1 : tokenize input = c :: rest) (h2 : is_option_like c = false)
    (h3 : c ≠ "--") (hc : CHOICES.contains c = false) :
    parse_cmd (tokenize input) = .error .systemExit := by
  have hm : c ∉ CHOICES := by simpa using hc
  rw [h1]
  simp [parse_cmd, find_cmd, h2, h3, hm]

/-- Inversion of `find_cmd`: a successful parse only ever accepts a
token that passed the `choices` check. -/
theorem find_cmd_ok_mem (tokens skipped : List String) (c : String)
    (rest : List String) (h : find_cmd tokens skipped = .ok (c, rest)) :
    c ∈ CHOICES := by
  induction tokens generalizing skipped with
  | nil => exact absurd h (by simp [find_cmd])
  | cons t ts ih =>
    unfold find_cmd at h
    by_cases hsep : t = "--"
    · rw [if_pos hsep] at h
      match ts, h with
      | c2 :: ts2, h =>
        dsimp only at h
        by_cases hb : CHOICES.contains c2 = true
        · rw [hb] at h
          simp only [if_true] at h
          obtain ⟨hc2, -⟩ := Prod.mk.injEq .. ▸ Except.ok.inj h
          subst hc2
          simpa using hb
        · rw [Bool.not_eq_true] at hb
          rw [hb] at h
          simp at h
    · rw [if_neg hsep] at h
      by_cases ho : is_option_like t = true
      · rw [ho] at h
        simp only [if_true] at h
        exact ih (t :: skipped) h
      · rw [Bool.not_eq_true] at ho
        rw [ho] at h
        simp only [Bool.false_eq_true, if_false] at h
        by_cases hb : CHOICES.contains t = true
        · rw [hb] at h
          simp only [if_true] at h
          obtain ⟨hc2, -⟩ := Prod.mk.injEq .. ▸ Except.ok.inj h
          subst hc2
          simpa using hb
        · rw [Bool.not_eq_true] at hb
          rw [hb] at h
          simp at h

/-- Inversion: a successful command parse accepts a registered token. -/
theorem parse_cmd_ok_mem (tokens : List String) (c : String)
    (rest : List String) (h : parse_cmd tokens = .ok (c, rest)) :
    c ∈ CHOICES :=
  find_cmd_ok_mem tokens [] c rest h

/-- `switch` on a successfully parsed command reduces to the cleanup
block followed by the looked-up handler. -/
theorem switch_eq_ok (st : St) (input : String) (c : String)
    (rest : List String) (f : St → List String → DispatchResult)
    (hp : parse_cmd (tokenize input) = .ok (c, rest))
    (hf : lookup_call c = some f) :
    switch st input = { f (cleanup st).1 rest with
      events := (cleanup st).2 ++ (f (cleanup st).1 rest).events } := by
  unfold switch
  rw [hp]
  dsimp only
  rw [hf]

/-- `switch` on a failed command parse: state untouched, the argparse
diagnostic printed, the exception propagated.  In particular the
cleanup block has not run. -/
theorem switch_eq_err (st : St) (input : String) (e : PyExc)
    (hp : parse_cmd (tokenize input) = .error e) :
    switch st input =
      { state := st,
        events := [Event.print ("ta: error: argument cmd: invalid choice: " ++ input)],
        outcome := .error e } := by
  unfold switch
  rw [hp]

/-- The cleanup block leaves `stock` untouched. -/
theorem cleanup_stock (st : St) : (cleanup st).1.stock = st.stock := by
  unfold cleanup; split_ifs <;> rfl

/-- The cleanup block leaves `ticker` untouched. -/
theorem cleanup_ticker (st : St) : (cleanup st).1.ticker = st.ticker := by
  unfold cleanup; split_ifs <;> rfl

/-- The cleanup block leaves `start` untouched. -/
theorem cleanup_start (st : St) : (cleanup st).1.start = st.start := by
  unfold cleanup; split_ifs <;> rfl

/-- The cleanup block leaves `interval` untouched. -/
theorem cleanup_interval (st : St) :
    (cleanup st).1.interval = st.interval := by
  unfold cleanup; split_ifs <;> rfl

/-- The cleanup block leaves `gst` untouched. -/
theorem cleanup_gst (st : St) : (cleanup st).1.gst = st.gst := by
  unfold cleanup; split_ifs <;> rfl

/-- With the flag set and the artifact present, the cleanup block
removes it, clears the flag and logs the removal. -/
theorem cleanup_on_present (st : St) (hd : st.delete_img = true)
    (hp : st.fs.contains (st.ticker ++ ".jpg") = true) :
    cleanup st =
      ({ st with fs := st.fs.erase (st.ticker ++ ".jpg"), delete_img := false },
       [Event.removeFile (st.ticker ++ ".jpg")]) := by
  have hp2 : st.ticker ++ ".jpg" ∈ st.fs := by simpa using hp
  simp [cleanup, hd, hp2]

/-- With the flag set but the artifact absent, the cleanup block does
nothing — in particular it does NOT clear the flag (the reset sits
inside the `isfile` branch in the source). -/
theorem cleanup_on_absent (st : St) (hd : st.delete_img = true)
    (hp : st.fs.contains (st.ticker ++ ".jpg") = false) :
    cleanup st = (st, []) := by
  have hp2 : st.ticker ++ ".jpg" ∉ st.fs := by simpa using hp
  simp [cleanup, hd, hp2]

/-- `call_ma` (the `ema`/`sma` handler body) never changes the state. -/
theorem call_ma_state (name : String) (st : St) (other : List String) :
    (call_ma name st other).state = st := by
  unfold call_ma
  rcases hp : parse_known_args_and_warn other with ⟨pevs, _ | ns⟩
  · rfl
  · unfold ta_overlap_ma
    by_cases hu : st.upstreamOk <;> simp [hu]

/-- `call_ma` always returns `None` (CONTINUE): a parse failure hits
the sentinel path, and a compute-layer failure is caught by the
`except Exception` clause. -/
theorem call_ma_outcome (name : String) (st : St) (other : List String) :
    (call_ma name st other).outcome = Except.ok none := by
  unfold call_ma
  rcases hp : parse_known_args_and_warn other with ⟨pevs, _ | ns⟩
  · rfl
  · unfold ta_overlap_ma
    by_cases hu : st.upstreamOk <;> simp [hu]

/-- Every registered command has a `call_<name>` method. -/
theorem lookup_isSome (c : String) (hc : c ∈ CHOICES) :
    (lookup_call c).isSome = true := by
  fin_cases hc <;> rfl

/-- Master case analysis of a dispatch of any registered command:
the outcome is a normally returned signal; the session context fields
are untouched; the file system after the dispatch is exactly the one
the cleanup block left; the `delete_img` flag after the dispatch is
the one the cleanup block left (set to `true` by the `view` handler);
and the cleanup block events come first. -/
theorem switch_frame (st : St) (input c : String) (rest : List String)
    (hp : parse_cmd (tokenize input) = .ok (c, rest)) (hc : c ∈ CHOICES) :
    isReturned (switch st input).outcome = true ∧
    (switch st input).state.stock = st.stock ∧
    (switch st input).state.ticker = st.ticker ∧
    (switch st input).state.start = st.start ∧
    (switch st input).state.interval = st.interval ∧
    (switch st input).state.gst = st.gst ∧
    (switch st input).state.fs = (cleanup st).1.fs ∧
    (c ≠ "view" →
      (switch st input).state.delete_img = (cleanup st).1.delete_img) ∧
    (c = "view" → (switch st input).state.delete_img = true) ∧
    (∃ hev, (switch st input).events = (cleanup st).2 ++ hev) := by
  fin_cases hc <;>
    (rw [switch_eq_ok st input _ rest _ hp rfl]
     refine ⟨?_, ?_, ?_, ?_, ?_, ?_, ?_, ?_, ?_, ⟨_, rfl⟩⟩ <;>
       simp [call_help, call_q, call_quit, call_view, call_simple,
         call_ma_state, call_ma_outcome, isReturned, cleanup_stock,
         cleanup_ticker, cleanup_start, cleanup_interval, cleanup_gst])

/-- C5: in the `--length` coercion shared by `ema` and `sma`, the
value `"20,50"` with integer element type is coerced to `[20, 50]`,
and `"20,abc"` produces an argument error (type-coercion failure on
`"abc"`) instead of an options record. -/
theorem C5_comma_list_coercion :
    ma_length_type "20,50" = some [20, 50] ∧
    ma_length_type "20,abc" = none ∧
    ma_parse_tokens ["--length", "20,50"] none none [] =
      .ok ({ length := [20, 50], offset := 0 }, []) ∧
    ma_parse_tokens ["--length", "20,abc"] none none [] =
      .error "argument -l/--length: invalid value: 20,abc" := by
  decide

/-- C1, counterexample: dispatching the unregistered token `"bogus"`
does not return CONTINUE (`none`) from `switch` — the argparse
`choices` check raises `SystemExit` out of the dispatch call. -/
theorem C1_counterexample :
    (switch sampleSt "bogus").outcome = Except.error PyExc.systemExit ∧
    (switch sampleSt "bogus").outcome ≠ Except.ok none := by
  decide

/-- C1, amended: for every input line whose first whitespace-separated
token is positional-like — argparse binds it to the `cmd` positional;
option-like first tokens are instead routed to the extras, so the
command may bind to a later token — but not a registered command,
`switch` prints the argparse invalid-choice diagnostic and raises
`SystemExit` (leaving the state untouched); the CONTINUE behavior
lives one level up — the `menu` loop catches the `SystemExit`, prints
the unrecognized-command diagnostic, and keeps looping. -/
theorem C1_theorem (st : St) (input c : String) (rest : List String)
    (h1 : tokenize input = c :: rest)
    (h2 : is_option_like c = false) (h3 : c ≠ "--")
    (h4 : CHOICES.contains c = false) :
    (switch st input).outcome = Except.error PyExc.systemExit ∧
    (switch st input).state = st ∧
    (switch st input).events =
      [Event.print ("ta: error: argument cmd: invalid choice: " ++ input)] ∧
    (menu_loop st [input]).2.1 = MenuOut.needInput ∧
    Event.print "The command selected doesn\x27t exist\n" ∈
      (menu_loop st [input]).1 := by
  have hp := parse_cmd_err_of input c rest h1 h2 h3 h4
  have hs := switch_eq_err st input .systemExit hp
  refine ⟨by rw [hs], by rw [hs], by rw [hs], ?_, ?_⟩ <;>
    simp [menu_loop, hs]

/-- C1, witness for the amended theorem at the line `"bogus"`. -/
theorem C1_witness :
    tokenize "bogus" = "bogus" :: [] ∧
    is_option_like "bogus" = false ∧
    "bogus" ≠ "--" ∧
    CHOICES.contains "bogus" = false ∧
    ((switch sampleSt "bogus").outcome = Except.error PyExc.systemExit ∧
     (switch sampleSt "bogus").state = sampleSt ∧
     (switch sampleSt "bogus").events =
       [Event.print ("ta: error: argument cmd: invalid choice: " ++ "bogus")] ∧
     (menu_loop sampleSt ["bogus"]).2.1 = MenuOut.needInput ∧
     Event.print "The command selected doesn\x27t exist\n" ∈
       (menu_loop sampleSt ["bogus"]).1) :=
  ⟨by decide, by decide, by decide, by decide,
   C1_theorem sampleSt "bogus" "bogus" [] (by decide) (by decide)
     (by decide) (by decide)⟩

/-- C2: dispatching any registered command returns normally — no
handler failure escapes `switch` — and by the type of the signal the
returned value is CONTINUE (`none`), EXIT_MENU (`some false`) or
EXIT_PROGRAM (`some true`). -/
theorem C2_theorem (st : St) (input c : String) (rest : List String)
    (h1 : tokenize input = c :: rest) (hc : c ∈ CHOICES) :
    ∃ sig : Option Bool, (switch st input).outcome = Except.ok sig := by
  have hp := parse_cmd_ok_of input c rest h1 (by simpa using hc)
  have h := (switch_frame st input c rest hp hc).1
  rcases ho : (switch st input).outcome with e | sig
  · rw [ho] at h; exact absurd h (by simp [isReturned])
  · exact ⟨sig, rfl⟩

/-- C2, witness at the `vwap` command. -/
theorem C2_witness :
    tokenize "vwap" = "vwap" :: [] ∧ "vwap" ∈ CHOICES ∧
    ∃ sig : Option Bool, (switch sampleSt "vwap").outcome = Except.ok sig :=
  ⟨by decide, by decide,
   C2_theorem sampleSt "vwap" "vwap" [] (by decide) (by decide)⟩

/-- C3: on the injected input sequence `["bogus", "help", "q"]` the
menu loop prints the unknown-command diagnostic for `"bogus"`, prints
the help text again for `"help"` (the startup help plus the dispatched
one make its lines appear twice), and returns EXIT_MENU (`False`)
after exactly 3 dispatches. -/
theorem C3_theorem :
    (menu "df" "GME" none "1440min" "g" [] false true
      ["bogus", "help", "q"]).2.1 = MenuOut.returned false ∧
    (menu "df" "GME" none "1440min" "g" [] false true
      ["bogus", "help", "q"]).2.2 = 3 ∧
    Event.print "The command selected doesn\x27t exist\n" ∈
      (menu "df" "GME" none "1440min" "g" [] false true
        ["bogus", "help", "q"]).1 ∧
    ((menu "df" "GME" none "1440min" "g" [] false true
      ["bogus", "help", "q"]).1.count
        (Event.print "   ema         exponential moving average")) = 2 := by
  decide

/-- C4, counterexample: with the pending-cleanup flag set and the
artifact `GME.jpg` absent, a dispatch does not clear the flag — the
reset sits inside the `os.path.isfile` branch, so `delete_img` stays
`true` (the dispatch still completes normally). -/
theorem C4_counterexample :
    (switch samplePendingAbsent "help").state.delete_img = true ∧
    isReturned (switch samplePendingAbsent "help").outcome = true := by
  decide

/-- C4, amended: when a previous dispatch set the pending-cleanup flag
for `<ticker>.jpg`, the next dispatch of a registered command deletes
the file before running its own command and clears the flag — but
only when the file exists; when the file is already absent, nothing is
deleted, no exception is raised, and the flag REMAINS SET (it is
cleared only on actual deletion). -/
theorem C4_theorem (st : St) (input c : String) (rest : List String)
    (h1 : tokenize input = c :: rest) (hc : c ∈ CHOICES)
    (hd : st.delete_img = true) :
    (st.fs.contains (st.ticker ++ ".jpg") = true →
      (switch st input).events.head? =
        some (Event.removeFile (st.ticker ++ ".jpg")) ∧
      (switch st input).state.fs = st.fs.erase (st.ticker ++ ".jpg") ∧
      (c ≠ "view" → (switch st input).state.delete_img = false)) ∧
    (st.fs.contains (st.ticker ++ ".jpg") = false →
      isReturned (switch st input).outcome = true ∧
      (switch st input).state.fs = st.fs ∧
      (switch st input).state.delete_img = true) := by
  have hpc := parse_cmd_ok_of input c rest h1 (by simpa using hc)
  have hf := switch_frame st input c rest hpc hc
  obtain ⟨hret, -, -, -, -, -, hfs, hdel, hdelv, hev, hevs⟩ := hf
  constructor
  · intro hpres
    have hcl := cleanup_on_present st hd hpres
    refine ⟨?_, ?_, ?_⟩
    · rw [hevs, hcl]
      rfl
    · rw [hfs, hcl]
    · intro hnv
      rw [hdel hnv, hcl]
  · intro habs
    have hcl := cleanup_on_absent st hd habs
    refine ⟨hret, ?_, ?_⟩
    · rw [hfs, hcl]
    · by_cases hv : c = "view"
      · exact hdelv hv
      · rw [hdel hv, hcl]
        exact hd

/-- C4, witness for the amended theorem: dispatching `"sma"` with the
flag set, once with the artifact present and once with it absent. -/
theorem C4_witness :
    tokenize "sma" = "sma" :: [] ∧ "sma" ∈ CHOICES ∧
    samplePendingPresent.delete_img = true ∧
    ((samplePendingPresent.fs.contains
        (samplePendingPresent.ticker ++ ".jpg") = true →
      (switch samplePendingPresent "sma").events.head? =
        some (Event.removeFile (samplePendingPresent.ticker ++ ".jpg")) ∧
      (switch samplePendingPresent "sma").state.fs =
        samplePendingPresent.fs.erase
          (samplePendingPresent.ticker ++ ".jpg") ∧
      ("sma" ≠ "view" →
        (switch samplePendingPresent "sma").state.delete_img = false)) ∧
     (samplePendingPresent.fs.contains
        (samplePendingPresent.ticker ++ ".jpg") = false →
      isReturned (switch samplePendingPresent "sma").outcome = true ∧
      (switch samplePendingPresent "sma").state.fs =
        samplePendingPresent.fs ∧
      (switch samplePendingPresent "sma").state.delete_img = true)) :=
  ⟨by decide, by decide, by decide,
   C4_theorem samplePendingPresent "sma" "sma" [] (by decide) (by decide)
     (by decide)⟩

/-- C6: dispatching `"ema"` with tokens
`["--length", "10,30", "--offset", "-1"]` produces the offset argument
error (the offset must be non-negative), `switch` returns CONTINUE
(`none`, never EXIT_MENU or EXIT_PROGRAM), and no chart render
(`plt.show`) or export call occurs. -/
theorem C6_theorem (st : St) :
    (switch st "ema --length 10,30 --offset -1").outcome =
      Except.ok none ∧
    Event.print "argument -o/--offset: invalid value: -1" ∈
      (switch st "ema --length 10,30 --offset -1").events ∧
    Event.chartShow ∉ (switch st "ema --length 10,30 --offset -1").events ∧
    (∀ fmt, Event.exportData fmt ∉
      (switch st "ema --length 10,30 --offset -1").events) := by
  have h1 : tokenize "ema --length 10,30 --offset -1" =
      "ema" :: ["--length", "10,30", "--offset", "-1"] := by decide
  have hp := parse_cmd_ok_of _ _ _ h1 (by rfl)
  rw [switch_eq_ok st _ _ _ _ hp rfl]
  have hma : call_ma "ema" (cleanup st).1
      ["--length", "10,30", "--offset", "-1"] =
      { state := (cleanup st).1,
        events := [Event.print "argument -o/--offset: invalid value: -1"],
        outcome := Except.ok none } := by
    unfold call_ma
    have hw : parse_known_args_and_warn
        ["--length", "10,30", "--offset", "-1"] =
        ([Event.print "argument -o/--offset: invalid value: -1"], none) := by
      decide
    rw [hw]
  rw [hma]
  have hce : (cleanup st).2 = [] ∨
      (cleanup st).2 = [Event.removeFile (st.ticker ++ ".jpg")] := by
    unfold cleanup; split_ifs <;> simp
  rcases hce with h | h <;> rw [h] <;> simp

/-- C7: every dispatch, whatever the input line, leaves the session
context (`stock`, `ticker`, `start`, `interval`, `gst`) unchanged;
the registry (`CHOICES` and the `lookup_call` binding) is a constant
of the embedding, so `delete_img` (and the file system the cleanup
block touches) is the only router-owned state a dispatch modifies. -/
theorem C7_theorem (st : St) (input : String) :
    (switch st input).state.stock = st.stock ∧
    (switch st input).state.ticker = st.ticker ∧
    (switch st input).state.start = st.start ∧
    (switch st input).state.interval = st.interval ∧
    (switch st input).state.gst = st.gst := by
  rcases hp : parse_cmd (tokenize input) with e | ⟨c, rest⟩
  · rw [switch_eq_err st input e hp]
    exact ⟨rfl, rfl, rfl, rfl, rfl⟩
  · have hcm := parse_cmd_ok_mem _ _ _ hp
    have hf := switch_frame st input c rest hp hcm
    exact ⟨hf.2.1, hf.2.2.1, hf.2.2.2.1, hf.2.2.2.2.1, hf.2.2.2.2.2.1⟩

/-- C8, counterexample: the registered command `"q"` does not accept
(or even inspect) `--offset`: dispatching `"q --offset -1"` — an
invalid non-negative-integer value — produces no diagnostic at all and
returns EXIT_MENU, refuting the claim that every registered command
parses a `--length`/`--offset` schema. -/
theorem C8_counterexample :
    switch sampleSt "q --offset -1" =
      { state := sampleSt, events := [], outcome := Except.ok (some false) } := by
  decide

/-- C8, amended: the `ema` and `sma` commands (whose shared schema is
`ma_parse_tokens`, used via `parse_known_args_and_warn` by `call_ma`)
accept `--length` as comma-separated integers with default `[20, 50]`
and `--offset` as a non-negative integer with default `0`; parsing
with no argument tokens yields length `[20, 50]` and offset `0`.
The other registered commands do not share this schema (`help`, `q`
and `quit` ignore their tokens entirely). -/
theorem C8_theorem :
    ma_parse_tokens [] none none [] =
      .ok ({ length := [20, 50], offset := 0 }, []) ∧
    ma_parse_tokens ["--length", "7,9"] none none [] =
      .ok ({ length := [7, 9], offset := 0 }, []) ∧
    ma_parse_tokens ["--offset", "3"] none none [] =
      .ok ({ length := [20, 50], offset := 3 }, []) ∧
    parse_known_args_and_warn [] =
      ([], some { length := [20, 50], offset := 0 }) := by
  decide

/-- C9: whenever the dispatch parser succeeds, the accepted command
token is an element of `CHOICES`, and every element of `CHOICES` has a
`call_<name>` method; hence the zero-argument fallback lambda passed
to `getattr` in `switch` is never invoked. -/
theorem C9_theorem (tokens : List String) (c : String)
    (rest : List String) (h : parse_cmd tokens = .ok (c, rest)) :
    c ∈ CHOICES ∧ (lookup_call c).isSome = true := by
  have hm := parse_cmd_ok_mem tokens c rest h
  exact ⟨hm, lookup_isSome c hm⟩

/-- C9, witness at the token list `["help"]`. -/
theorem C9_witness :
    parse_cmd ["help"] = .ok ("help", []) ∧
    ("help" ∈ CHOICES ∧ (lookup_call "help").isSome = true) :=
  ⟨by decide, C9_theorem ["help"] "help" [] (by decide)⟩

/-- C10: in the income, balance and cashflow comparison views, the
table handed to `export_data` is the fetched comparison table exactly
as fetched, before any colorization; it is the same for
`USE_COLOR = true` and `USE_COLOR = false` (and for every colorize
function) — the flag influences only the rendered table. -/
theorem C10_theorem (colorize : String → String) (fetched : Table)
    (timeframe : String) (quarter : Bool) (fmt : String) (useColor : Bool) :
    exported_tables (display_income_comparison colorize fetched
      timeframe quarter fmt useColor) = [fetched] ∧
    exported_tables (display_balance_comparison colorize fetched
      timeframe quarter fmt useColor) = [fetched] ∧
    exported_tables (display_cashflow_comparison colorize fetched
      timeframe quarter fmt useColor) = [fetched] := by
  refine ⟨?_, ?_, ?_⟩ <;>
    (cases useColor <;>
      simp [display_income_comparison, display_balance_comparison,
        display_cashflow_comparison, display_comparison, exported_tables])

end GT
